import Mathlib

/-!
Shallow embedding of `src/pageable.js` (varvet-pageable), a wheel-scroll
page controller.  JS numbers are modelled as real numbers; the debounce
timeline uses rational time stamps so that it stays decidable.  Host
callbacks are modelled as a trace of emitted `Callback` values.  The
extraction of the delta from the event object (`e[this.settings.direction]`)
is out of scope per the spec: the controller receives the already
normalized numeric delta directly.
-/

namespace Pageable

/-- Configuration, `this.settings` with the defaults of the constructor
(pageable.js lines 15-28).  The callback fields are represented by the
emitted trace, and `direction` (the delta field name) is abstracted away
because the embedding receives the numeric delta directly. -/
structure Settings where
  pages : Int := 0
  pageHeight : ℝ := 1000
  stopAtPage : Bool := false
  momentum : Bool := false
  easeBack : Bool := false
  eventTimeout : ℚ := 100

/-- Mutable controller state.  `percentage` is `none` while the JS field
`this.percentage` is still `undefined` (the constructor never assigns it;
it is first written in `onScroll` or `gotoPage`).  `stoppedAtPage` is the
JS field whose values `null`/`true` are modelled as `false`/`true`.
`easing`/`easeOrigin` model the `easeInterval`/`easeOrigin` fields of the
easing session (armed interval, recorded origin percentage). -/
structure State where
  page : Int
  delta : ℝ
  percentage : Option ℝ
  scrolling : Bool
  stoppedAtPage : Bool
  disabled : Bool
  easing : Bool
  easeOrigin : Option ℝ

/-- The state right after the constructor ran (pageable.js lines 33-36):
`page = 0`, `delta = 0`, `scrolling = false`, `stoppedAtPage = null`.
`percentage`, `disabled`, the easing fields are untouched (`undefined`,
modelled as `none` / falsy `false`). -/
def initState : State :=
  { page := 0
    delta := 0
    percentage := none
    scrolling := false
    stoppedAtPage := false
    disabled := false
    easing := false
    easeOrigin := none }

/-- One host callback invocation, recorded as a trace event. -/
inductive Callback where
  | scrollStart (percentage : Option ℝ) (page : Int)
  | scroll (percentage : ℝ) (page : Int)
  | scrollStop (percentage : Option ℝ) (page : Int)
  | pageChange (prevPage : Int) (newPage : Int)

/-- `true` exactly on `Callback.scroll` events. -/
def Callback.isScroll : Callback → Bool
  | .scroll _ _ => true
  | _ => false

/-- `true` exactly on `Callback.pageChange` events. -/
def Callback.isPageChange : Callback → Bool
  | .pageChange _ _ => true
  | _ => false

/-- The single runtime error the source can raise in `onScroll`:
evaluating the unbound identifier `page` in `this.gotoPage(page + 1)` /
`this.gotoPage(page - 1)` (pageable.js lines 179 and 184) throws a
`ReferenceError` in JavaScript, since no variable `page` is declared in
any enclosing scope of either source file. -/
inductive ScrollError where
  | referenceErrorPage

/-- `Pageable.prototype.easeOut` (pageable.js lines 246-248), Penner's
quintic-factor ease-out: `c*((t/d-1)^5 + 1) + b`. -/
noncomputable def easeOut (t b c d : ℝ) : ℝ :=
  c * ((t / d - 1) ^ 5 + 1) + b

/-- `Pageable.prototype.gotoPage` (pageable.js lines 79-89): record the
previous page, set the new one, fire `onPageChange(prev, page)`, reset
`percentage` and `delta`, arm the stop-at-page guard. -/
noncomputable def gotoPage (s : State) (target : Int) : State × List Callback :=
  ({ s with
      page := target
      percentage := some 0
      delta := 0
      stoppedAtPage := true },
   [Callback.pageChange s.page target])

/-- `Pageable.prototype.onScrollStart` (pageable.js lines 112-116):
set `scrolling`, reset `delta`, fire `onScrollStart(percentage, page)`
with the current (possibly still undefined) percentage. -/
def onScrollStart (s : State) : State × List Callback :=
  ({ s with scrolling := true, delta := 0 },
   [Callback.scrollStart s.percentage s.page])

/-- The momentum branch of `onScroll` (pageable.js lines 170-175): when
momentum is on and the controller is at the boundary page in the travel
direction, replace the percentage by the shifted logistic
`1/(1 + E^(-percentage)) - 0.5` (with `Math.pow(Math.E, -x)` read as the
real exponential `Real.exp (-x)`). -/
noncomputable def momentumAdjust (st : Settings) (page : Int) (p : ℝ) : ℝ :=
  if st.momentum = true ∧ ((page = st.pages - 1 ∧ p > 0) ∨ (page = 0 ∧ p < 0))
  then 1 / (1 + Real.exp (-p)) - 0.5
  else p

/-- The tail of `Pageable.prototype.onScroll` after the guards and the
scroll-start step (pageable.js lines 166-187), faithful to the source:
accumulate the delta, recompute and possibly momentum-adjust the
percentage, then run the two page-transition checks.  Both transition
branches reference the unbound identifier `page`, so reaching either
raises `ScrollError.referenceErrorPage` with the mutations made so far
kept, and neither `gotoPage` nor the final `onScroll` callback runs. -/
noncomputable def scrollAccumulate (st : Settings) (s1 : State)
    (cbs1 : List Callback) (d : ℝ) : State × List Callback × Option ScrollError :=
  let delta' := s1.delta + d
  let p1 := momentumAdjust st s1.page (delta' / st.pageHeight)
  let s2 : State := { s1 with delta := delta', percentage := some p1 }
  if p1 ≥ 1 ∧ s2.page < st.pages - 1 then
    (s2, cbs1, some ScrollError.referenceErrorPage)
  else if p1 ≤ -1 ∧ s2.page > 0 then
    (s2, cbs1, some ScrollError.referenceErrorPage)
  else
    (s2, cbs1 ++ [Callback.scroll p1 s2.page], none)

/-- `Pageable.prototype.onScroll` (pageable.js lines 143-188), faithful
to the source.  The debounced stop-detector call on line 151 only
re-arms a timer (modelled separately by `debounceFire`) and changes no
controller field synchronously, so it does not appear here.  Result:
new state, emitted host callbacks, and the runtime error, if any. -/
noncomputable def onScroll (st : Settings) (s : State) (d : ℝ) :
    State × List Callback × Option ScrollError :=
  if s.disabled then (s, [], none)
  else if st.stopAtPage && s.stoppedAtPage then (s, [], none)
  else if !s.scrolling then
    scrollAccumulate st (onScrollStart s).1 (onScrollStart s).2 d
  else
    scrollAccumulate st s [] d

/-- Modelled from the spec: the page-transition tail of `onScroll` with
the defect of the unbound `page` variable repaired as the spec directs
(§9: "likely `this.page ± 1` intended ... the fix (use `currentPage ± 1`)
is assumed correct").  Identical to `scrollAccumulate` except that the
transition branches call `gotoPage` on `this.page ± 1`; the backward
check re-reads `this.percentage` (reset to 0 by a forward `gotoPage`). -/
noncomputable def scrollAccumulateIntended (st : Settings) (s1 : State)
    (cbs1 : List Callback) (d : ℝ) : State × List Callback :=
  let delta' := s1.delta + d
  let p1 := momentumAdjust st s1.page (delta' / st.pageHeight)
  let s2 : State := { s1 with delta := delta', percentage := some p1 }
  let fwd := if p1 ≥ 1 ∧ s2.page < st.pages - 1 then gotoPage s2 (s2.page + 1)
             else (s2, [])
  let s3 := fwd.1
  let bwd := if s3.percentage.getD p1 ≤ -1 ∧ s3.page > 0 then gotoPage s3 (s3.page - 1)
             else (s3, [])
  let s4 := bwd.1
  (s4, cbs1 ++ fwd.2 ++ bwd.2 ++ [Callback.scroll (s4.percentage.getD p1) s4.page])

/-- Modelled from the spec: `onScroll` with the §9 fix applied (see
`scrollAccumulateIntended`); guards as in the source. -/
noncomputable def onScrollIntended (st : Settings) (s : State) (d : ℝ) :
    State × List Callback :=
  if s.disabled then (s, [])
  else if st.stopAtPage && s.stoppedAtPage then (s, [])
  else if !s.scrolling then
    scrollAccumulateIntended st (onScrollStart s).1 (onScrollStart s).2 d
  else
    scrollAccumulateIntended st s [] d

/-- `Pageable.prototype.startEasing` (pageable.js lines 214-220): clear
any previous interval, reset `delta`, record the origin percentage and
arm the repeating tick (`easing := true`). -/
def startEasing (s : State) : State :=
  { s with delta := 0, easeOrigin := s.percentage, easing := true }

/-- `Pageable.prototype.onScrollStop` (pageable.js lines 194-207), the
function being debounced: clear the stop-at-page guard, then either start
easing (when `easeBack`) or fire the host `onScrollStop(percentage, page)`
callback, reset `delta` and clear `scrolling`. -/
def onScrollStopEffect (st : Settings) (s : State) : State × List Callback :=
  let s0 := if s.stoppedAtPage then { s with stoppedAtPage := false } else s
  if st.easeBack then (startEasing s0, [])
  else ({ s0 with delta := 0, scrolling := false },
        [Callback.scrollStop s0.percentage s0.page])

/-- Iterate the faithful `onScroll` over a list of event deltas. -/
noncomputable def run (st : Settings) (s : State) : List ℝ → State
  | [] => s
  | d :: ds => run st (onScroll st s d).1 ds

/-- Iterate the spec-repaired `onScrollIntended` over a list of deltas. -/
noncomputable def runIntended (st : Settings) (s : State) : List ℝ → State
  | [] => s
  | d :: ds => runIntended st (onScrollIntended st s d).1 ds

/-- `Pageable.prototype.debounce` (pageable.js lines 125-135) on an
explicit rational timeline.  The calls to the wrapper happen at the given
nondecreasing time stamps; `pending` is the firing time of the currently
scheduled timeout, if one is armed.  At each call, a pending timeout
whose time has already passed has fired (`clearTimeout` on it is a
no-op); otherwise it is cancelled; either way a fresh timeout is armed
`wait` after the call.  After the last call the pending timeout fires.
The result is the list of times at which the debounced function ran. -/
def debounceFire (wait : ℚ) : List ℚ → Option ℚ → List ℚ
  | [], pending =>
    match pending with
    | some p => [p]
    | none => []
  | t :: ts, pending =>
    (match pending with
     | some p => if p ≤ t then [p] else []
     | none => []) ++ debounceFire wait ts (some (t + wait))

/-- Consecutive call times are spaced strictly less than `wait` apart. -/
def burstB (wait : ℚ) : List ℚ → Bool
  | a :: b :: rest => decide (b < a + wait) && burstB wait (b :: rest)
  | _ => true

/-- Sample configuration: two pages of height 1000, all flags off. -/
noncomputable def stBasic : Settings := { pages := 2, pageHeight := 1000 }

/-- Sample configuration: two pages, momentum on. -/
noncomputable def stMomentum : Settings := { pages := 2, pageHeight := 1000, momentum := true }

/-- Sample configuration: two pages, stop-at-page on. -/
noncomputable def stStop : Settings := { pages := 2, pageHeight := 1000, stopAtPage := true }

/-- Sample configuration: two pages, ease-back on. -/
noncomputable def stEase : Settings := { pages := 2, pageHeight := 1000, easeBack := true }

/-- A freshly constructed controller that was then disabled. -/
def sDisabled : State := { initState with disabled := true }

/-- A controller that just landed on page 1 via `gotoPage` and is still
mid-scroll: the stop-at-page guard is armed. -/
noncomputable def sLocked : State :=
  { page := 1
    delta := 0
    percentage := some 0
    scrolling := true
    stoppedAtPage := true
    disabled := false
    easing := false
    easeOrigin := none }

/-- A controller resting on the last of two pages, mid-scroll, guard
clear. -/
noncomputable def sLastPage : State :=
  { page := 1
    delta := 0
    percentage := some 0
    scrolling := true
    stoppedAtPage := false
    disabled := false
    easing := false
    easeOrigin := none }

end Pageable

open Pageable

/-- C8: `easeOut(0, b, c, d) = b` and `easeOut(d, b, c, d) = b + c` for
all `b`, `c` and all `d > 0` — the boundary identity of the quintic
ease-out function. -/
theorem easeOut_boundary_identity (b c d : ℝ) (hd : 0 < d) :
    Pageable.easeOut 0 b c d = b ∧ Pageable.easeOut d b c d = b + c := by
  constructor
  · simp only [Pageable.easeOut, zero_div]
    norm_num
  · simp only [Pageable.easeOut, div_self (ne_of_gt hd)]
    norm_num
    ring

/-- Witness for C8 at `b = 2`, `c = 3`, `d = 1`. -/
theorem easeOut_boundary_identity_witness :
    Pageable.easeOut 0 2 3 1 = 2 ∧ Pageable.easeOut 1 2 3 1 = 2 + 3 :=
  easeOut_boundary_identity 2 3 1 (by norm_num)

/-- C9: calling `onScroll` while the controller is disabled is a no-op:
the state is returned unchanged, no host callback is emitted and no
error is raised. -/
theorem disabled_onScroll_noop (st : Settings) (s : State) (d : ℝ)
    (h : s.disabled = true) :
    Pageable.onScroll st s d = (s, [], none) := by
  simp [Pageable.onScroll, h]

/-- Witness for C9: a disabled fresh controller ignores a delta of 42. -/
theorem disabled_onScroll_noop_witness :
    Pageable.onScroll stBasic sDisabled 42 = (sDisabled, [], none) :=
  disabled_onScroll_noop stBasic sDisabled 42 rfl

/-- C6: when the debounced stop effect runs, if `easeBack` is enabled the
easing animation is started (interval armed, delta reset) and the host
`onScrollStop` callback is not invoked; if `easeBack` is disabled the
host `onScrollStop(percentage, currentPage)` callback is invoked,
`delta` is reset to 0 and `scrolling` is cleared. -/
theorem stopEffect_easeBack_branches (st : Settings) (s : State) :
    (st.easeBack = true →
      (Pageable.onScrollStopEffect st s).1.easing = true ∧
      (Pageable.onScrollStopEffect st s).1.delta = 0 ∧
      (Pageable.onScrollStopEffect st s).2 = []) ∧
    (st.easeBack = false →
      (Pageable.onScrollStopEffect st s).2 =
        [Callback.scrollStop s.percentage s.page] ∧
      (Pageable.onScrollStopEffect st s).1.delta = 0 ∧
      (Pageable.onScrollStopEffect st s).1.scrolling = false) := by
  refine ⟨fun h => ?_, fun h => ?_⟩ <;>
    cases hsp : s.stoppedAtPage <;>
      simp [Pageable.onScrollStopEffect, Pageable.startEasing, h, hsp]

/-- Witness for C6: with ease-back on, the effect arms the easing
session and emits nothing; with ease-back off, it emits the
`onScrollStop` callback. -/
theorem stopEffect_easeBack_branches_witness :
    (Pageable.onScrollStopEffect stEase sLastPage).1.easing = true ∧
    (Pageable.onScrollStopEffect stBasic sLastPage).2 =
      [Callback.scrollStop (some 0) 1] :=
  ⟨((stopEffect_easeBack_branches stEase sLastPage).1 rfl).1,
   ((stopEffect_easeBack_branches stBasic sLastPage).2 rfl).1⟩

/-- C10: construction initializes `page`, `delta`, `scrolling` and the
stop-at-page guard but never the `percentage` field, so the very first
handled scroll event invokes `onScrollStart` with the still-undefined
percentage (modelled as `none`). -/
theorem first_event_uninitialized_percentage (st : Settings) (d : ℝ) :
    Pageable.initState.percentage = none ∧
    Pageable.initState.page = 0 ∧
    Pageable.initState.delta = 0 ∧
    Pageable.initState.scrolling = false ∧
    Pageable.initState.stoppedAtPage = false ∧
    ((Pageable.onScroll st Pageable.initState d).2.1).head? =
      some (Callback.scrollStart none 0) := by
  refine ⟨rfl, rfl, rfl, rfl, rfl, ?_⟩
  simp only [Pageable.onScroll, Pageable.initState, Pageable.onScrollStart,
    Pageable.scrollAccumulate]
  split_ifs <;> simp_all

/-- The stop effect always leaves the guard cleared, the delta reset and
the disabled flag untouched, in both the easing and the plain branch. -/
theorem stopEffect_state_fields (st : Settings) (s : State) :
    (Pageable.onScrollStopEffect st s).1.stoppedAtPage = false ∧
    (Pageable.onScrollStopEffect st s).1.delta = 0 ∧
    (Pageable.onScrollStopEffect st s).1.disabled = s.disabled := by
  cases hsp : s.stoppedAtPage <;> cases he : st.easeBack <;>
    simp [Pageable.onScrollStopEffect, Pageable.startEasing, hsp, he]

/-- A zero-delta event on an enabled, unlocked controller with reset
delta always emits at least one host callback. -/
theorem onScroll_zeroDelta_emits (st : Settings) (s : State)
    (hd : s.disabled = false) (hl : (st.stopAtPage && s.stoppedAtPage) = false)
    (hdelta : s.delta = 0) :
    (Pageable.onScroll st s 0).2.1 ≠ [] := by
  cases hsc : s.scrolling
  · simp only [Pageable.onScroll, hd, hl, hsc, Pageable.scrollAccumulate,
      Pageable.onScrollStart]
    norm_num [Pageable.momentumAdjust]
    exact List.cons_ne_nil _ _
  · simp only [Pageable.onScroll, hd, hl, hsc, Pageable.scrollAccumulate]
    norm_num [Pageable.momentumAdjust, hdelta]

/-- C5: with `stopAtPage` enabled and the stop-at-page guard armed (as
`gotoPage` leaves it after a page change), every further `onScroll` call
is a complete no-op: the state is returned unchanged and no host
callback is emitted; the debounced stop effect clears the guard, after
which input is processed again (a subsequent event emits callbacks). -/
theorem stopAtPage_lock_noop_until_stop (st : Settings) (s : State)
    (hstop : st.stopAtPage = true) (hlk : s.stoppedAtPage = true)
    (hdis : s.disabled = false) :
    (∀ d : ℝ, Pageable.onScroll st s d = (s, [], none)) ∧
    (Pageable.onScrollStopEffect st s).1.stoppedAtPage = false ∧
    (Pageable.onScroll st (Pageable.onScrollStopEffect st s).1 0).2.1 ≠ [] := by
  refine ⟨fun d => ?_, (stopEffect_state_fields st s).1, ?_⟩
  · simp [Pageable.onScroll, hdis, hstop, hlk]
  · have h := stopEffect_state_fields st s
    exact onScroll_zeroDelta_emits st _ (h.2.2.trans hdis) (by simp [h.1]) h.2.1

/-- Witness for C5 on a two-page stop-at-page controller locked after a
page change. -/
theorem stopAtPage_lock_noop_until_stop_witness :
    Pageable.onScroll stStop sLocked 123 = (sLocked, [], none) ∧
    (Pageable.onScrollStopEffect stStop sLocked).1.stoppedAtPage = false ∧
    (Pageable.onScroll stStop (Pageable.onScrollStopEffect stStop sLocked).1 0).2.1 ≠ [] :=
  ⟨(stopAtPage_lock_noop_until_stop stStop sLocked rfl rfl rfl).1 123,
   (stopAtPage_lock_noop_until_stop stStop sLocked rfl rfl rfl).2.1,
   (stopAtPage_lock_noop_until_stop stStop sLocked rfl rfl rfl).2.2⟩

/-- In a burst, the pending timeout armed by the previous call never
fires before the next call, so only the final arming fires. -/
theorem debounceFire_pending_burst (wait : ℚ) (ts : List ℚ) :
    ∀ t : ℚ, Pageable.burstB wait (t :: ts) = true →
      Pageable.debounceFire wait ts (some (t + wait)) = [ts.getLastD t + wait] := by
  induction ts with
  | nil => intro t _; simp [Pageable.debounceFire]
  | cons t' ts' ih =>
    intro t h
    simp only [Pageable.burstB, Bool.and_eq_true, decide_eq_true_eq] at h
    obtain ⟨h1, h2⟩ := h
    simp only [Pageable.debounceFire]
    rw [if_neg (not_le.mpr h1)]
    rw [List.nil_append, ih t' h2, List.getLastD_cons]

/-- C7: any burst of `N ≥ 1` calls to the debounced stop-detector whose
consecutive calls are spaced strictly less than the configured
`eventTimeout` apart produces exactly one execution of the stop effect,
`eventTimeout` after the last call of the burst. -/
theorem debounce_single_fire (st : Settings) (t : ℚ) (ts : List ℚ)
    (h : Pageable.burstB st.eventTimeout (t :: ts) = true) :
    Pageable.debounceFire st.eventTimeout (t :: ts) none =
      [ts.getLastD t + st.eventTimeout] := by
  simp only [Pageable.debounceFire, List.nil_append]
  exact debounceFire_pending_burst st.eventTimeout ts t h

/-- Witness for C7: three calls at times 0, 50, 120 with a 100ms
timeout fire exactly once, at time 220. -/
theorem debounce_single_fire_witness :
    Pageable.burstB stBasic.eventTimeout [0, 50, 120] = true ∧
    Pageable.debounceFire stBasic.eventTimeout [0, 50, 120] none = [220] := by
  have hB : Pageable.burstB stBasic.eventTimeout [0, 50, 120] = true := by
    norm_num [Pageable.burstB, Pageable.stBasic]
  refine ⟨hB, ?_⟩
  rw [debounce_single_fire stBasic 0 [50, 120] hB]
  norm_num [List.getLastD, Pageable.stBasic]

/-- The faithful `onScroll` never changes the page: both transition
branches throw on the unbound `page` identifier before `gotoPage` runs. -/
theorem onScroll_page_eq (st : Settings) (s : State) (d : ℝ) :
    (Pageable.onScroll st s d).1.page = s.page := by
  simp only [Pageable.onScroll, Pageable.scrollAccumulate, Pageable.onScrollStart]
  split_ifs <;> rfl

/-- Iterating the faithful `onScroll` never changes the page. -/
theorem run_page_eq (st : Settings) (ds : List ℝ) :
    ∀ s : State, (Pageable.run st s ds).page = s.page := by
  induction ds with
  | nil => intro s; rfl
  | cons d ds ih =>
    intro s
    rw [Pageable.run, ih, onScroll_page_eq]

/-- The repaired transition tail keeps the page inside `[0, pages-1]`:
the forward branch fires only below the last page, the backward branch
only above page 0. -/
theorem scrollAccumulateIntended_page_bounds (st : Settings) (s1 : State)
    (cbs1 : List Callback) (d : ℝ)
    (h0 : 0 ≤ s1.page) (h1 : s1.page ≤ st.pages - 1) :
    0 ≤ (Pageable.scrollAccumulateIntended st s1 cbs1 d).1.page ∧
    (Pageable.scrollAccumulateIntended st s1 cbs1 d).1.page ≤ st.pages - 1 := by
  simp only [Pageable.scrollAccumulateIntended, Pageable.gotoPage, Option.getD_some]
  split_ifs with hf hb hb'
  · exfalso; norm_num at hb
  · obtain ⟨-, hf2⟩ := hf
    refine ⟨?_, ?_⟩ <;> simp <;> omega
  · obtain ⟨-, hb2⟩ := hb'
    simp at hb2
    refine ⟨?_, ?_⟩ <;> simp <;> omega
  · refine ⟨?_, ?_⟩ <;> simp <;> omega

/-- One repaired `onScroll` step preserves the page range. -/
theorem onScrollIntended_page_bounds (st : Settings) (s : State) (d : ℝ)
    (h0 : 0 ≤ s.page) (h1 : s.page ≤ st.pages - 1) :
    0 ≤ (Pageable.onScrollIntended st s d).1.page ∧
    (Pageable.onScrollIntended st s d).1.page ≤ st.pages - 1 := by
  simp only [Pageable.onScrollIntended]
  split_ifs with hd hl hs
  · exact ⟨h0, h1⟩
  · exact ⟨h0, h1⟩
  · exact scrollAccumulateIntended_page_bounds st _ _ d (by simpa [Pageable.onScrollStart]) (by simpa [Pageable.onScrollStart])
  · exact scrollAccumulateIntended_page_bounds st s [] d h0 h1

/-- Iterating the repaired `onScroll` preserves the page range. -/
theorem runIntended_page_bounds (st : Settings) (ds : List ℝ) :
    ∀ s : State, 0 ≤ s.page → s.page ≤ st.pages - 1 →
      0 ≤ (Pageable.runIntended st s ds).page ∧
      (Pageable.runIntended st s ds).page ≤ st.pages - 1 := by
  induction ds with
  | nil => intro s h0 h1; exact ⟨h0, h1⟩
  | cons d ds ih =>
    intro s h0 h1
    rw [Pageable.runIntended]
    have hstep := onScrollIntended_page_bounds st s d h0 h1
    exact ih _ hstep.1 hstep.2

/-- C2: starting from construction, for every configuration with
`pages > 0` and every sequence of scroll events of any magnitudes and
signs, the current page stays within `[0, pages-1]` — both for the
faithful code (where the transition branches throw before `gotoPage`,
so the page never moves at all) and for the spec-repaired transitions
(where the range guards do the clamping). -/
theorem currentPage_always_in_range (st : Settings) (h : 0 < st.pages) (ds : List ℝ) :
    (0 ≤ (Pageable.run st Pageable.initState ds).page ∧
     (Pageable.run st Pageable.initState ds).page ≤ st.pages - 1) ∧
    (0 ≤ (Pageable.runIntended st Pageable.initState ds).page ∧
     (Pageable.runIntended st Pageable.initState ds).page ≤ st.pages - 1) := by
  have hinit : Pageable.initState.page = 0 := rfl
  constructor
  · rw [run_page_eq st ds Pageable.initState, hinit]
    exact ⟨le_refl 0, by omega⟩
  · exact runIntended_page_bounds st ds Pageable.initState (by omega) (by omega)

/-- Witness for C2: two pages, a large forward and a backward event. -/
theorem currentPage_always_in_range_witness :
    (0 ≤ (Pageable.run stBasic Pageable.initState [1500, -700]).page ∧
     (Pageable.run stBasic Pageable.initState [1500, -700]).page ≤ stBasic.pages - 1) ∧
    (0 ≤ (Pageable.runIntended stBasic Pageable.initState [1500, -700]).page ∧
     (Pageable.runIntended stBasic Pageable.initState [1500, -700]).page ≤ stBasic.pages - 1) :=
  currentPage_always_in_range stBasic (by norm_num [Pageable.stBasic]) [1500, -700]

/-- The shifted logistic used by the momentum branch is always strictly
between -0.5 and 0.5. -/
theorem logistic_shift_bounds (x : ℝ) :
    -0.5 < 1 / (1 + Real.exp (-x)) - 0.5 ∧ 1 / (1 + Real.exp (-x)) - 0.5 < 0.5 := by
  have hE : 0 < Real.exp (-x) := Real.exp_pos _
  have h1 : (0:ℝ) < 1 + Real.exp (-x) := by linarith
  constructor
  · have h2 : 0 < 1 / (1 + Real.exp (-x)) := by positivity
    linarith
  · have h3 : 1 / (1 + Real.exp (-x)) < 1 := by
      rw [div_lt_one h1]; linarith
    linarith

/-- On the last page with positive percentage the momentum branch is
taken. -/
theorem momentumAdjust_lastPage (st : Settings) (page : Int) (p : ℝ)
    (hm : st.momentum = true) (hp : page = st.pages - 1) (hpos : 0 < p) :
    Pageable.momentumAdjust st page p = 1 / (1 + Real.exp (-p)) - 0.5 := by
  rw [Pageable.momentumAdjust, if_pos ⟨hm, Or.inl ⟨hp, hpos⟩⟩]

/-- On the last page with positive accumulated delta, the momentum-
compressed percentage is in (-0.5, 0.5) and neither transition branch
fires, in the faithful tail (no throw) and in the repaired tail (no
`gotoPage`, no `onPageChange`). -/
theorem scrollAccumulate_momentum_last (st : Settings) (s1 : State)
    (cbs1 : List Callback) (d : ℝ)
    (hm : st.momentum = true) (hpage : s1.page = st.pages - 1)
    (hph : 0 < st.pageHeight) (hdelta : 0 < s1.delta + d) :
    ∃ p : ℝ, -0.5 < p ∧ p < 0.5 ∧
      (Pageable.scrollAccumulate st s1 cbs1 d).1.percentage = some p ∧
      (Pageable.scrollAccumulate st s1 cbs1 d).1.page = s1.page ∧
      (Pageable.scrollAccumulate st s1 cbs1 d).2.2 = none ∧
      (Pageable.scrollAccumulateIntended st s1 cbs1 d).1.page = s1.page ∧
      (Pageable.scrollAccumulateIntended st s1 cbs1 d).2.countP Pageable.Callback.isPageChange
        = cbs1.countP Pageable.Callback.isPageChange := by
  have hp0 : 0 < (s1.delta + d) / st.pageHeight := div_pos hdelta hph
  have heq : Pageable.momentumAdjust st s1.page ((s1.delta + d) / st.pageHeight)
      = 1 / (1 + Real.exp (-((s1.delta + d) / st.pageHeight))) - 0.5 :=
    momentumAdjust_lastPage st s1.page _ hm hpage hp0
  obtain ⟨hlo, hhi⟩ := logistic_shift_bounds ((s1.delta + d) / st.pageHeight)
  have hnf : ¬(Pageable.momentumAdjust st s1.page ((s1.delta + d) / st.pageHeight) ≥ 1
      ∧ s1.page < st.pages - 1) := by
    rintro ⟨hge, -⟩; rw [heq] at hge; linarith
  have hnb : ¬(Pageable.momentumAdjust st s1.page ((s1.delta + d) / st.pageHeight) ≤ -1
      ∧ s1.page > 0) := by
    rintro ⟨hle, -⟩; rw [heq] at hle; linarith
  refine ⟨Pageable.momentumAdjust st s1.page ((s1.delta + d) / st.pageHeight),
    by rw [heq]; exact hlo, by rw [heq]; exact hhi, ?_, ?_, ?_, ?_, ?_⟩
  · simp only [Pageable.scrollAccumulate]
    rw [if_neg hnf, if_neg hnb]
  · simp only [Pageable.scrollAccumulate]
    rw [if_neg hnf, if_neg hnb]
  · simp only [Pageable.scrollAccumulate]
    rw [if_neg hnf, if_neg hnb]
  · simp only [Pageable.scrollAccumulateIntended]
    rw [if_neg hnf]
    simp only [Option.getD_some]
    rw [if_neg hnb]
  · simp only [Pageable.scrollAccumulateIntended]
    rw [if_neg hnf]
    simp only [Option.getD_some]
    rw [if_neg hnb]
    simp [Pageable.Callback.isPageChange]

/-- C3: with momentum enabled and the controller on the last page, any
handled scroll event whose accumulated delta is positive (of arbitrary
magnitude) yields a percentage strictly inside (-0.5, 0.5) after the
momentum adjustment, and triggers no page change: the faithful code
raises no error and keeps the page, and the spec-repaired transitions
produce no `gotoPage` and no `onPageChange` either. -/
theorem momentum_lastPage_percentage_bounded (st : Settings) (s : State) (d : ℝ)
    (hm : st.momentum = true) (hpage : s.page = st.pages - 1)
    (hdis : s.disabled = false) (hlock : (st.stopAtPage && s.stoppedAtPage) = false)
    (hph : 0 < st.pageHeight)
    (hdelta : 0 < (if s.scrolling then s.delta else 0) + d) :
    ∃ p : ℝ, -0.5 < p ∧ p < 0.5 ∧
      (Pageable.onScroll st s d).1.percentage = some p ∧
      (Pageable.onScroll st s d).1.page = s.page ∧
      (Pageable.onScroll st s d).2.2 = none ∧
      (Pageable.onScrollIntended st s d).1.page = s.page ∧
      (Pageable.onScrollIntended st s d).2.countP Pageable.Callback.isPageChange = 0 := by
  cases hsc : s.scrolling
  · have hdelta' : 0 < (Pageable.onScrollStart s).1.delta + d := by
      simp only [Pageable.onScrollStart]
      simpa [hsc] using hdelta
    have hpage' : (Pageable.onScrollStart s).1.page = st.pages - 1 := by
      simpa [Pageable.onScrollStart] using hpage
    obtain ⟨p, hlo, hhi, h1, h2, h3, h4, h5⟩ :=
      scrollAccumulate_momentum_last st (Pageable.onScrollStart s).1
        (Pageable.onScrollStart s).2 d hm hpage' hph hdelta'
    have hred : Pageable.onScroll st s d =
        Pageable.scrollAccumulate st (Pageable.onScrollStart s).1
          (Pageable.onScrollStart s).2 d := by
      simp only [Pageable.onScroll, hdis, hlock, hsc]
      simp
    have hredI : Pageable.onScrollIntended st s d =
        Pageable.scrollAccumulateIntended st (Pageable.onScrollStart s).1
          (Pageable.onScrollStart s).2 d := by
      simp only [Pageable.onScrollIntended, hdis, hlock, hsc]
      simp
    refine ⟨p, hlo, hhi, ?_, ?_, ?_, ?_, ?_⟩
    · rw [hred, h1]
    · rw [hred, h2]; simp [Pageable.onScrollStart]
    · rw [hred, h3]
    · rw [hredI, h4]; simp [Pageable.onScrollStart]
    · rw [hredI, h5]; simp [Pageable.onScrollStart, Pageable.Callback.isPageChange]
  · have hdelta' : 0 < s.delta + d := by simpa [hsc] using hdelta
    obtain ⟨p, hlo, hhi, h1, h2, h3, h4, h5⟩ :=
      scrollAccumulate_momentum_last st s [] d hm hpage hph hdelta'
    have hred : Pageable.onScroll st s d = Pageable.scrollAccumulate st s [] d := by
      simp only [Pageable.onScroll, hdis, hlock, hsc]
      simp
    have hredI : Pageable.onScrollIntended st s d =
        Pageable.scrollAccumulateIntended st s [] d := by
      simp only [Pageable.onScrollIntended, hdis, hlock, hsc]
      simp
    refine ⟨p, hlo, hhi, ?_, ?_, ?_, ?_, ?_⟩
    · rw [hred, h1]
    · rw [hred, h2]
    · rw [hred, h3]
    · rw [hredI, h4]
    · rw [hredI, h5]; simp

/-- Witness for C3: last of two pages, momentum on, a 500-unit delta on
a 1000-unit page height. -/
theorem momentum_lastPage_percentage_bounded_witness :
    ∃ p : ℝ, -0.5 < p ∧ p < 0.5 ∧
      (Pageable.onScroll stMomentum sLastPage 500).1.percentage = some p ∧
      (Pageable.onScroll stMomentum sLastPage 500).1.page = sLastPage.page ∧
      (Pageable.onScroll stMomentum sLastPage 500).2.2 = none ∧
      (Pageable.onScrollIntended stMomentum sLastPage 500).1.page = sLastPage.page ∧
      (Pageable.onScrollIntended stMomentum sLastPage 500).2.countP
        Pageable.Callback.isPageChange = 0 :=
  momentum_lastPage_percentage_bounded stMomentum sLastPage 500 rfl (by decide)
    rfl rfl (by norm_num [Pageable.stMomentum]) (by norm_num [Pageable.sLastPage])

/-- C1 (code bug): on a fresh two-page controller with momentum off, a
single event whose delta equals `pageHeight` reaches the forward
transition check, where the source evaluates the unbound identifier
`page` and throws: the faithful model reports the `ReferenceError`, the
page stays 0 and `onPageChange` never fires.  Under the spec-intended
fix (`this.page + 1`) the same input does land on page 1 with exactly
one `onPageChange(0, 1)`. -/
theorem unboundPage_firstTransition_throws :
    (Pageable.onScroll stBasic Pageable.initState 1000).2.2
        = some ScrollError.referenceErrorPage ∧
    (Pageable.onScroll stBasic Pageable.initState 1000).1.page = 0 ∧
    (Pageable.onScroll stBasic Pageable.initState 1000).2.1.countP
        Pageable.Callback.isPageChange = 0 ∧
    (Pageable.onScrollIntended stBasic Pageable.initState 1000).1.page = 1 ∧
    (Pageable.onScrollIntended stBasic Pageable.initState 1000).2.filter
        Pageable.Callback.isPageChange = [Pageable.Callback.pageChange 0 1] := by
  norm_num [Pageable.onScroll, Pageable.onScrollIntended, Pageable.scrollAccumulate,
    Pageable.scrollAccumulateIntended, Pageable.onScrollStart, Pageable.momentumAdjust,
    Pageable.gotoPage, Pageable.initState, Pageable.stBasic,
    Pageable.Callback.isPageChange, List.countP_cons, List.countP_nil,
    List.filter_cons, List.filter_nil]

/-- C4 (code bug): a handled event that triggers a page transition
throws on the unbound `page` identifier before the final host `onScroll`
callback runs, so that callback is skipped (count 0); a handled event
that stays below the threshold does invoke it exactly once, and under
the spec-intended fix every handled event invokes it exactly once, with
the post-transition percentage and page as arguments. -/
theorem onScroll_callback_skipped_on_transition :
    (Pageable.onScroll stBasic Pageable.initState 1000).2.1.countP
        Pageable.Callback.isScroll = 0 ∧
    (Pageable.onScroll stBasic Pageable.initState 1000).2.2
        = some ScrollError.referenceErrorPage ∧
    (Pageable.onScroll stBasic Pageable.initState 500).2.1.countP
        Pageable.Callback.isScroll = 1 ∧
    (Pageable.onScrollIntended stBasic Pageable.initState 1000).2.countP
        Pageable.Callback.isScroll = 1 ∧
    (Pageable.onScrollIntended stBasic Pageable.initState 1000).2.getLast?
        = some (Pageable.Callback.scroll 0 1) := by
  norm_num [Pageable.onScroll, Pageable.onScrollIntended, Pageable.scrollAccumulate,
    Pageable.scrollAccumulateIntended, Pageable.onScrollStart, Pageable.momentumAdjust,
    Pageable.gotoPage, Pageable.initState, Pageable.stBasic,
    Pageable.Callback.isScroll, List.countP_cons, List.countP_nil,
    List.getLast?_cons_cons, List.getLast?_singleton]
